import Mathlib

/-!
Shallow embedding of `src/ftjoboffersapi.py` (class `FTJobOffersAPI`),
restricted to the members the verified claims concern: `get_nb_offers`,
`get_lazy_job_offers` and `get_all_job_offers`.

Timestamps are modelled as integers counting seconds: the serialization
format `%Y-%m-%dT%H:%M:%SZ` has second resolution, `strptime`/`strftime`
round-trip exactly at that resolution, and `strftime` floors sub-second
values (Python `datetime` normalizes the microsecond field into `[0, 10^6)`,
so dropping it always rounds toward minus infinity).  Consequently the
pivotal date `start + (end - start)/2`, once re-serialized, is exactly
`start + (end - start).ediv 2`, which is what `/` on `Int` computes for the
positive literal divisor `2`.

Network effects are supplied by an explicit environment `Env`: the HEAD
count probe is a function of the parameters, and the n-th GET issued for a
given parameter set during one window walk is a function of the parameters
and of n.  Python exceptions are modelled by the `PyErr` markers carried in
the results next to the chunks already yielded before the exception was
raised; the `fuelOut` marker stands for divergence, since the recursion and
the paging loop of the source have no termination guarantee and the
embedding is fuel-indexed.
-/

/-- Result records are opaque to the engine; model them as naturals. -/
abbrev JobOffer := Nat

/-- One successful page fetch's `resultats` array, in server order. -/
abbrev Chunk := List JobOffer

/-- The query-parameter dictionary.  The three keys that
`get_lazy_job_offers` reads are modelled explicitly (the two date keys as
seconds, `publieeDepuis` as its integer day count, each `none` when the key
is absent); every remaining entry is kept opaque in `other`. -/
structure Params where
  minCreationDate : Option Int
  maxCreationDate : Option Int
  publieeDepuis : Option Int
  other : List (String × String)
  deriving DecidableEq

/-- One GET response, reduced to the fields the source reads: the status
code, the optional `resultats` field of the JSON body, and the two headers
of the 206 protocol (`Content-Range`'s total after the slash, and
`Accept-Range`), each `none` when absent. -/
structure Response where
  status : Nat
  resultats : Option Chunk
  contentRangeTotal : Option Int
  acceptRange : Option Int
  deriving DecidableEq

/-- Markers for the Python exceptions the embedded code can raise, plus the
fuel-exhaustion marker standing for divergence.

* `typeCmpNone`: `None >= int` (`nb_offers >= self.MAX_RANGE` with
  `get_nb_offers` having returned `None`);
* `typeKeyList`: `response.json()[[]]` — the source subscripts the body
  dict with the conditional key `"resultats" if "resultats" in ... else []`,
  so an absent `resultats` field indexes the dict with the unhashable
  list `[]`;
* `attrNoneHeader`: `None.split("/")` when the `Content-Range` header is
  absent from a 206 response;
* `typeIntOfNone`: `int(None)` when the `Accept-Range` header is absent
  from a 206 response;
* `fuelOut`: the run did not finish within the fuel, i.e. the source
  diverges. -/
inductive PyErr where
  | typeCmpNone
  | typeKeyList
  | attrNoneHeader
  | typeIntOfNone
  | fuelOut
  deriving DecidableEq

/-- The external world of one traversal: the clock (`datetime.now()`, in
seconds), the HEAD count probe (the `Content-Range` total, `none` when the
header is absent), and the GET responses (`fetch p n` is the n-th GET
issued with parameters `p` during one window walk). -/
structure Env where
  now : Int
  head : Params → Option Int
  fetch : Params → Nat → Response

/-- `FTJobOffersAPI.MAX_RANGE`, the server-enforced ceiling. -/
def MAX_RANGE : Int := 3000

/-- `timedelta(days=1)` in seconds. -/
def secondsPerDay : Int := 86400

/-- `get_nb_offers` (lines 242-259): HEAD probe; returns the total taken
from the `Content-Range` header, or `None` when the header is absent. -/
def get_nb_offers (env : Env) (p : Params) : Option Int :=
  match env.head p with
  | some total => some total
  | none => none

/-- The `start_date` of `get_lazy_job_offers` (lines 167-171):
`minCreationDate` if present, else `now - timedelta(days=maxCreationDays)`. -/
def resolvedStart (env : Env) (maxCreationDays : Int) (p : Params) : Int :=
  match p.minCreationDate with
  | some d => d
  | none => env.now - maxCreationDays * secondsPerDay

/-- The `end_date` of `get_lazy_job_offers` (lines 172-176):
`maxCreationDate` if present, else `now`. -/
def resolvedEnd (env : Env) (p : Params) : Int :=
  match p.maxCreationDate with
  | some d => d
  | none => env.now

/-- The `start_date` after the `publieeDepuis` fold (lines 179-185): when
the key is present and `start_date < now - publieeDepuis days`, the start
is raised to that bound. -/
def effStart (env : Env) (maxCreationDays : Int) (p : Params) : Int :=
  match p.publieeDepuis with
  | some n =>
    if resolvedStart env maxCreationDays p < env.now - n * secondsPerDay then
      env.now - n * secondsPerDay
    else resolvedStart env maxCreationDays p
  | none => resolvedStart env maxCreationDays p

/-- The pivotal date `mid_date = start_date + (end_date - start_date) / 2`
(line 189), as re-serialized at second resolution (floor). -/
def midOf (env : Env) (maxCreationDays : Int) (p : Params) : Int :=
  effStart env maxCreationDays p +
    (resolvedEnd env p - effStart env maxCreationDays p) / 2

/-- Output of the split section of `get_lazy_job_offers` (lines 166-194):
the two child parameter dicts, and the caller-visible state of the original
dict after the split (the source executes `del params["publieeDepuis"]` on
the caller's dict when the fold raised the start, and the two children are
`copy()`s taken after that deletion). -/
structure SplitOut where
  p1 : Params
  p2 : Params
  caller : Params
  deriving DecidableEq

/-- Lines 166-194 of `get_lazy_job_offers`: resolve the window, fold
`publieeDepuis` (deleting the key from the caller's dict exactly when the
fold raised the start), compute the pivotal date, and build the two child
parameter dicts `[start, mid]` and `[mid + 1 second, end]`. -/
def splitParams (env : Env) (maxCreationDays : Int) (p : Params) : SplitOut :=
  let caller :=
    match p.publieeDepuis with
    | some n =>
      if resolvedStart env maxCreationDays p < env.now - n * secondsPerDay then
        { p with publieeDepuis := none }
      else p
    | none => p
  { p1 := { caller with
      minCreationDate := some (effStart env maxCreationDays p),
      maxCreationDate := some (midOf env maxCreationDays p) }
    p2 := { caller with
      minCreationDate := some (midOf env maxCreationDays p + 1),
      maxCreationDate := some (resolvedEnd env p) }
    caller := caller }

/-- Line 219: a paged response is consumed iff its status is 200 or 206. -/
def okStatus (s : Nat) : Bool := s == 200 || s == 206

/-- Output of one window walk (the base case of `get_lazy_job_offers`):
the chunks yielded, the number of GETs issued, and the exception raised
mid-generation, if any. -/
structure WalkOut where
  chunks : List Chunk
  fetches : Nat
  error : Option PyErr
  deriving DecidableEq

/-- Prepend the chunk of one consumed page and count its fetch. -/
def consChunk (c : Chunk) (w : WalkOut) : WalkOut :=
  ⟨c :: w.chunks, w.fetches + 1, w.error⟩

/-- Count the fetch of one skipped page without yielding anything. -/
def skipChunk (w : WalkOut) : WalkOut :=
  ⟨w.chunks, w.fetches + 1, w.error⟩

/-- The `while range_d < range_end` loop of the 206 branch (lines 215-226).
State: remaining fuel, `range_d`, and the index of the next GET.  Each
iteration first advances `range_d` by `range` capped at `range_end` (the
dead counter `range_p` of the source is omitted: it is written and never
read), then issues the GET; a response that is neither 200 nor 206 is
logged and skipped, the advanced bookkeeping kept either way; a consumed
response with no `resultats` field raises (`typeKeyList`).  Running out of
fuel while the loop guard still holds marks divergence (the source loops
forever when the granted range is not positive). -/
def pageLoop (env : Env) (p : Params) (rangeEnd grant : Int) :
    Nat → Int → Nat → WalkOut
  | 0, rangeD, _ =>
    if rangeD < rangeEnd then ⟨[], 0, some .fuelOut⟩ else ⟨[], 0, none⟩
  | fuel+1, rangeD, i =>
    if rangeD < rangeEnd then
      if okStatus (env.fetch p i).status then
        match (env.fetch p i).resultats with
        | some c =>
          consChunk c (pageLoop env p rangeEnd grant fuel
            (if rangeD + grant ≤ rangeEnd then rangeD + grant else rangeEnd) (i+1))
        | none => ⟨[], 1, some .typeKeyList⟩
      else
        skipChunk (pageLoop env p rangeEnd grant fuel
          (if rangeD + grant ≤ rangeEnd then rangeD + grant else rangeEnd) (i+1))
    else ⟨[], 0, none⟩

/-- The number of iterations of the `while range_d < range_end` loop, as a
function of the bookkeeping alone: the advance of `range_d` does not depend
on the fetched statuses, so neither does the number of GETs issued. -/
def loopIters : Nat → Int → Int → Int → Nat
  | 0, _, _, _ => 0
  | fuel+1, rangeD, rangeEnd, grant =>
    if rangeD < rangeEnd then
      loopIters fuel
        (if rangeD + grant ≤ rangeEnd then rangeD + grant else rangeEnd)
        rangeEnd grant + 1
    else 0

/-- The iterative base case of `get_lazy_job_offers` (lines 200-231): one
GET, then by status: 200 yields the single chunk; 206 yields the first
chunk, reads the two range headers and runs the paging loop; anything else
is logged and the window abandoned (no chunk, no exception).  In both
yielding branches an absent `resultats` field raises `typeKeyList`
(`response.json()[[]]`), and on 206 an absent header raises after the
first chunk was already yielded. -/
def walkWindow (env : Env) (p : Params) : WalkOut :=
  if (env.fetch p 0).status = 200 then
    match (env.fetch p 0).resultats with
    | some c => ⟨[c], 1, none⟩
    | none => ⟨[], 1, some .typeKeyList⟩
  else if (env.fetch p 0).status = 206 then
    match (env.fetch p 0).resultats with
    | none => ⟨[], 1, some .typeKeyList⟩
    | some c =>
      match (env.fetch p 0).contentRangeTotal with
      | none => ⟨[c], 1, some .attrNoneHeader⟩
      | some total =>
        match (env.fetch p 0).acceptRange with
        | none => ⟨[c], 1, some .typeIntOfNone⟩
        | some grant =>
          consChunk c (pageLoop env p total grant
            ((total - (grant - 1)).toNat + 1) (grant - 1) 1)
  else ⟨[], 1, none⟩

/-- Output of `get_lazy_job_offers`: the chunks yielded, each tagged with
the effective start of the window it came from; the GETs issued; the number
of splits performed; the exception raised mid-generation, if any; and the
caller-visible state of the parameter dict after the call. -/
structure StreamOut where
  chunks : List (Int × Chunk)
  fetches : Nat
  splits : Nat
  error : Option PyErr
  finalParams : Params
  deriving DecidableEq

/-- `yield from` on the left child then the right child (lines 197-198):
if the left child raised, the right child is never started and the
exception propagates; otherwise the chunks concatenate. -/
def seqChunks (r1 r2 : StreamOut) (caller : Params) : StreamOut :=
  match r1.error with
  | some e => ⟨r1.chunks, r1.fetches, r1.splits + 1, some e, caller⟩
  | none =>
    ⟨r1.chunks ++ r2.chunks, r1.fetches + r2.fetches,
      r1.splits + r2.splits + 1, r2.error, caller⟩

/-- The base case of `get_lazy_job_offers`, with each yielded chunk tagged
by the effective start of the window being walked. -/
def tagWalk (env : Env) (maxCreationDays : Int) (p : Params) : StreamOut :=
  ⟨(walkWindow env p).chunks.map (fun c => (effStart env maxCreationDays p, c)),
    (walkWindow env p).fetches, 0, (walkWindow env p).error, p⟩

/-- `get_lazy_job_offers` (lines 151-231), fuel-indexed.  Probe the count;
`None` makes `nb_offers >= self.MAX_RANGE` raise `typeCmpNone`; a count at
or above the ceiling splits the window and recurses on both children (each
recursive call uses the default `maxCreationDays = 365`, irrelevant there
since both children carry explicit date bounds); otherwise walk the window. -/
def get_lazy_job_offers (env : Env) : Nat → Int → Params → StreamOut
  | 0, _, p => ⟨[], 0, 0, some .fuelOut, p⟩
  | fuel+1, maxCreationDays, p =>
    match get_nb_offers env p with
    | none => ⟨[], 0, 0, some .typeCmpNone, p⟩
    | some n =>
      if MAX_RANGE ≤ n then
        seqChunks
          (get_lazy_job_offers env fuel 365 (splitParams env maxCreationDays p).p1)
          (get_lazy_job_offers env fuel 365 (splitParams env maxCreationDays p).p2)
          (splitParams env maxCreationDays p).caller
      else
        tagWalk env maxCreationDays p

/-- `get_all_job_offers` (lines 141-149): flatten the lazy chunks into one
record list; an exception raised by the generator propagates. -/
def get_all_job_offers (env : Env) (fuel : Nat) (maxCreationDays : Int)
    (p : Params) : List JobOffer × Option PyErr :=
  (((get_lazy_job_offers env fuel maxCreationDays p).chunks.map Prod.snd).flatten,
    (get_lazy_job_offers env fuel maxCreationDays p).error)

/-! ### Concrete instances used by the claim theorems and witnesses -/

/-- Window marker used to route the two fetch behaviours of `env_c1`. -/
def p_c1a : Params := ⟨none, none, none, [("w", "a")]⟩

/-- Second parameter set for `env_c1` (206 walk). -/
def p_c1b : Params := ⟨none, none, none, [("w", "b")]⟩

/-- Environment for C1: counts are tiny (no split); querying `p_c1a` gets a
200 response whose body has no `resultats` field; querying `p_c1b` gets a
206 first page with `resultats`, then a 200 page without the field. -/
def env_c1 : Env :=
  ⟨0, fun _ => some 0,
    fun p i =>
      if p = p_c1a then ⟨200, none, none, none⟩
      else if i = 0 then ⟨206, some [5], some 10, some 5⟩
      else ⟨200, none, none, none⟩⟩

/-- Environment for C2: the HEAD probe never carries a `Content-Range`
header. -/
def env_c2 : Env := ⟨0, fun _ => none, fun _ _ => ⟨200, some [], none, none⟩⟩

/-- A parameter dict with no special keys. -/
def p_plain : Params := ⟨none, none, none, []⟩

/-- Witness window for C3: `[0, 3]` at second resolution. -/
def p_c3w : Params := ⟨some 0, some 3, none, []⟩

/-- Parameters of the C4 scenario: `{departement: "42"}`. -/
def p_c4 : Params := ⟨none, none, none, [("departement", "42")]⟩

/-- Environment for the C4 scenario: the root probe (no date bounds yet)
counts 3500, every dated child counts 100; the left child window (its
`maxCreationDate` is the pivotal date) fetches records `[10, 11]`, the
right child fetches `[20, 21]`, both as single 200 pages. -/
def env_c4 : Env :=
  ⟨0, fun p => if p.minCreationDate = none then some 3500 else some 100,
    fun p _ =>
      if p.maxCreationDate = some (-15768000) then ⟨200, some [10, 11], none, none⟩
      else ⟨200, some [20, 21], none, none⟩⟩

/-- Environment for C6/C10: every probe counts 5000 (so every window
splits) and every fetch is an empty 200 page. -/
def env_c6 : Env := ⟨0, fun _ => some 5000, fun _ _ => ⟨200, some [], none, none⟩⟩

/-- C6 counterexample parameters: `minCreationDate` five days ago and
`publieeDepuis = 10`; the published-since bound (ten days ago) does not
raise the start, so the source keeps the key. -/
def p_c6 : Params := ⟨some (-432000), none, some 10, []⟩

/-- C6 witness / C10 counterexample parameters: `minCreationDate` thirty
days ago and `publieeDepuis = 10`; the published-since bound raises the
start, so the source deletes the key from the caller's dict. -/
def p_c6f : Params := ⟨some (-2592000), none, some 10, []⟩

/-- Marker parameters for the C5 witness. -/
def p_c5 : Params := ⟨none, none, none, [("w", "c5")]⟩

/-- Environment for the C5 witness: first GET answers 206 with
`Content-Range` total 320 and `Accept-Range` 100; every further GET is a
200 page carrying one record. -/
def env_c5 : Env :=
  ⟨0, fun _ => some 0,
    fun _ i => if i = 0 then ⟨206, some [0], some 320, some 100⟩
               else ⟨200, some [i], none, none⟩⟩

/-- Marker parameters for the C7 witness (mid-walk failure). -/
def p_c7 : Params := ⟨none, none, none, [("w", "c7")]⟩

/-- Marker parameters for the C7 witness (first-fetch failure). -/
def p_c7b : Params := ⟨none, none, none, [("w", "c7b")]⟩

/-- Environment for the C7 witness: `p_c7b` gets a 404 on its first fetch;
`p_c7` gets a 206 first page (total 150, granted 100) and a 500 on every
further fetch. -/
def env_c7 : Env :=
  ⟨0, fun _ => some 0,
    fun p i =>
      if p = p_c7b then ⟨404, none, none, none⟩
      else if i = 0 then ⟨206, some [1], some 150, some 100⟩
      else ⟨500, none, none, none⟩⟩

/-- Environment for the C9 counterexample: counts are all 0 (every window
is a base case), but each fetch is a 206 page granting an `Accept-Range`
of 0, on which the source's paging loop never advances. -/
def env_c9 : Env := ⟨0, fun _ => some 0, fun _ _ => ⟨206, some [], some 5, some 0⟩⟩

/-- Environment for the C9 witness: counts 0, plain 200 pages, positive
granted range. -/
def env_c9w : Env := ⟨0, fun _ => some 0, fun _ _ => ⟨200, some [], none, some 1⟩⟩

/-- Zero-duration window for the C9 witness. -/
def p_c9w : Params := ⟨some 0, some 0, none, []⟩

/-! ### Helper lemmas -/

/-- `get_nb_offers` simply reports the HEAD `Content-Range` total. -/
theorem get_nb_offers_eq (env : Env) (p : Params) :
    get_nb_offers env p = env.head p := by
  unfold get_nb_offers; cases env.head p <;> rfl

/-- The caller-visible dict after a split is the third component of
`splitParams`, whatever the children did. -/
theorem seqChunks_finalParams (r1 r2 : StreamOut) (c : Params) :
    (seqChunks r1 r2 c).finalParams = c := by
  unfold seqChunks; cases r1.error <;> rfl

/-- Full run of the paging loop: with a positive granted range, enough
fuel, and a `resultats` field on every consumable response, the loop
terminates without error, issues exactly `loopIters` GETs (a quantity
depending on the bookkeeping alone, not on the statuses received), and
yields exactly the `resultats` of the consumable responses, in order,
skipping the others. -/
theorem pageLoop_run (env : Env) (p : Params) (rangeEnd grant : Int)
    (hg : 1 ≤ grant)
    (hres : ∀ j, okStatus (env.fetch p j).status = true →
      ((env.fetch p j).resultats).isSome = true) :
    ∀ fuel rangeD i, (rangeEnd - rangeD).toNat < fuel →
      pageLoop env p rangeEnd grant fuel rangeD i =
        ⟨(List.range' i (loopIters fuel rangeD rangeEnd grant)).filterMap
            (fun j => if okStatus (env.fetch p j).status then
              (env.fetch p j).resultats else none),
          loopIters fuel rangeD rangeEnd grant, none⟩ := by
  intro fuel
  induction fuel with
  | zero => intro rangeD i h; omega
  | succ fuel ih =>
    intro rangeD i h
    by_cases hlt : rangeD < rangeEnd
    · have hfuel :
          (rangeEnd - (if rangeD + grant ≤ rangeEnd then rangeD + grant
            else rangeEnd)).toNat < fuel := by
        split <;> omega
      simp only [pageLoop, loopIters, if_pos hlt]
      cases hok : okStatus (env.fetch p i).status with
      | false =>
        simp only [hok, Bool.false_eq_true, if_false, skipChunk]
        rw [ih _ (i+1) hfuel]
        simp only [List.range'_succ, List.filterMap_cons, hok, Bool.false_eq_true,
          if_false]
      | true =>
        obtain ⟨c, hc⟩ := Option.isSome_iff_exists.mp (hres i hok)
        simp only [hok, if_true, hc, consChunk]
        rw [ih _ (i+1) hfuel]
        simp only [List.range'_succ, List.filterMap_cons, hok, if_true, hc]
    · simp only [pageLoop, loopIters, if_neg hlt]
      rfl

/-- With a positive granted range and enough fuel the paging loop never
hits the divergence marker (it may still raise `typeKeyList`). -/
theorem pageLoop_no_fuelOut (env : Env) (p : Params) (rangeEnd grant : Int)
    (hg : 1 ≤ grant) :
    ∀ fuel rangeD i, (rangeEnd - rangeD).toNat < fuel →
      (pageLoop env p rangeEnd grant fuel rangeD i).error ≠ some .fuelOut := by
  intro fuel
  induction fuel with
  | zero => intro rangeD i h; omega
  | succ fuel ih =>
    intro rangeD i h
    by_cases hlt : rangeD < rangeEnd
    · have hfuel :
          (rangeEnd - (if rangeD + grant ≤ rangeEnd then rangeD + grant
            else rangeEnd)).toNat < fuel := by
        split <;> omega
      simp only [pageLoop, if_pos hlt]
      cases hok : okStatus (env.fetch p i).status with
      | false =>
        simp only [hok, Bool.false_eq_true, if_false, skipChunk]
        exact ih _ (i+1) hfuel
      | true =>
        cases hc : (env.fetch p i).resultats with
        | none => simp [hok]
        | some c =>
          simp only [hok, if_true, hc, consChunk]
          exact ih _ (i+1) hfuel
    · simp only [pageLoop, if_neg hlt]
      simp

/-- A window walk diverges only through its paging loop, and not at all
when every `Accept-Range` the server grants is positive. -/
theorem walkWindow_no_fuelOut (env : Env) (p : Params)
    (hga : ∀ g, (env.fetch p 0).acceptRange = some g → 1 ≤ g) :
    (walkWindow env p).error ≠ some .fuelOut := by
  unfold walkWindow
  by_cases h200 : (env.fetch p 0).status = 200
  · rw [if_pos h200]
    cases (env.fetch p 0).resultats <;> simp
  · rw [if_neg h200]
    by_cases h206 : (env.fetch p 0).status = 206
    · rw [if_pos h206]
      cases hres : (env.fetch p 0).resultats with
      | none => simp
      | some c =>
        cases hcr : (env.fetch p 0).contentRangeTotal with
        | none => simp
        | some total =>
          cases har : (env.fetch p 0).acceptRange with
          | none => simp
          | some grant =>
            simp only [consChunk]
            exact pageLoop_no_fuelOut env p total grant (hga grant har) _ _ 1 (by omega)
    · rw [if_neg h206]
      simp

/-- Resolution of an explicit `maxCreationDate`. -/
theorem resolvedEnd_of_max (env : Env) (q : Params) (b : Int)
    (hb : q.maxCreationDate = some b) : resolvedEnd env q = b := by
  unfold resolvedEnd; rw [hb]

/-- Effective start of a dict with an explicit `minCreationDate` whose
`publieeDepuis` bound, if any, does not exceed it. -/
theorem effStart_of_min (env : Env) (maxCreationDays : Int) (q : Params) (a : Int)
    (ha : q.minCreationDate = some a)
    (hpub : ∀ m, q.publieeDepuis = some m → env.now - m * secondsPerDay ≤ a) :
    effStart env maxCreationDays q = a := by
  have hrs : resolvedStart env maxCreationDays q = a := by
    unfold resolvedStart; rw [ha]
  unfold effStart
  cases hq : q.publieeDepuis with
  | none => exact hrs
  | some m =>
    rw [hrs]
    exact if_neg (not_lt.mpr (hpub m hq))

/-- Both children inherit the caller dict's `publieeDepuis` entry. -/
theorem splitParams_p1_pub (env : Env) (maxCreationDays : Int) (p : Params) :
    (splitParams env maxCreationDays p).p1.publieeDepuis =
      (splitParams env maxCreationDays p).caller.publieeDepuis := rfl

/-- Both children inherit the caller dict's `publieeDepuis` entry. -/
theorem splitParams_p2_pub (env : Env) (maxCreationDays : Int) (p : Params) :
    (splitParams env maxCreationDays p).p2.publieeDepuis =
      (splitParams env maxCreationDays p).caller.publieeDepuis := rfl

/-- When `publieeDepuis` survives the split, its bound is at most the
effective start (otherwise the source would have folded and deleted it). -/
theorem caller_pub_le (env : Env) (maxCreationDays : Int) (p : Params) (m : Int)
    (hm : (splitParams env maxCreationDays p).caller.publieeDepuis = some m) :
    env.now - m * secondsPerDay ≤ effStart env maxCreationDays p := by
  unfold splitParams at hm
  cases hpub : p.publieeDepuis with
  | none => simp [hpub] at hm
  | some k =>
    simp only [hpub] at hm
    by_cases hf : resolvedStart env maxCreationDays p < env.now - k * secondsPerDay
    · rw [if_pos hf] at hm
      simp at hm
    · rw [if_neg hf] at hm
      rw [hpub] at hm
      injection hm with hkm
      subst hkm
      unfold effStart
      simp only [hpub]
      rw [if_neg hf]
      omega

/-- The left child's effective window starts where the parent's does. -/
theorem effStart_p1 (env : Env) (maxCreationDays : Int) (p : Params) :
    effStart env 365 (splitParams env maxCreationDays p).p1 =
      effStart env maxCreationDays p := by
  refine effStart_of_min env 365 _ _ rfl ?_
  intro m hm
  rw [splitParams_p1_pub] at hm
  exact caller_pub_le env maxCreationDays p m hm

/-- The right child's effective window starts one second past the pivot
(provided the parent window is not inverted by more than one second). -/
theorem effStart_p2 (env : Env) (maxCreationDays : Int) (p : Params)
    (h : -2 ≤ resolvedEnd env p - effStart env maxCreationDays p) :
    effStart env 365 (splitParams env maxCreationDays p).p2 =
      midOf env maxCreationDays p + 1 := by
  refine effStart_of_min env 365 _ _ rfl ?_
  intro m hm
  rw [splitParams_p2_pub] at hm
  have hle := caller_pub_le env maxCreationDays p m hm
  unfold midOf at *
  omega

/-- The left child's window ends at the pivot. -/
theorem resolvedEnd_p1 (env : Env) (maxCreationDays : Int) (p : Params) :
    resolvedEnd env (splitParams env maxCreationDays p).p1 =
      midOf env maxCreationDays p :=
  resolvedEnd_of_max env _ _ rfl

/-- The right child's window ends where the parent's does. -/
theorem resolvedEnd_p2 (env : Env) (maxCreationDays : Int) (p : Params) :
    resolvedEnd env (splitParams env maxCreationDays p).p2 =
      resolvedEnd env p :=
  resolvedEnd_of_max env _ _ rfl

/-- Pairwise holds for any list under a reflexive-everywhere relation. -/
theorem pairwise_of_rel_all {α : Type} {R : α → α → Prop} (h : ∀ a b, R a b) :
    ∀ l : List α, l.Pairwise R
  | [] => List.Pairwise.nil
  | a :: l => List.Pairwise.cons (fun b _ => h a b) (pairwise_of_rel_all h l)

/-- Main invariant behind the ordering claim: whenever the effective
window is not inverted by more than one second, the stream's chunk tags
(effective window starts) are non-decreasing and bounded by the window. -/
theorem stream_sorted_bounds (env : Env) :
    ∀ (fuel : Nat) (maxCreationDays : Int) (p : Params),
      -1 ≤ resolvedEnd env p - effStart env maxCreationDays p →
      List.Pairwise (· ≤ ·)
        ((get_lazy_job_offers env fuel maxCreationDays p).chunks.map Prod.fst) ∧
      (∀ t ∈ (get_lazy_job_offers env fuel maxCreationDays p).chunks.map Prod.fst,
        effStart env maxCreationDays p ≤ t ∧ t ≤ resolvedEnd env p + 1) := by
  intro fuel
  induction fuel with
  | zero =>
    intro maxDays p h
    simp [get_lazy_job_offers]
  | succ fuel ih =>
    intro maxDays p h
    cases hnb : get_nb_offers env p with
    | none => simp [get_lazy_job_offers, hnb]
    | some n =>
      by_cases hn : MAX_RANGE ≤ n
      · have hmid : effStart env maxDays p ≤ midOf env maxDays p + 1 ∧
            midOf env maxDays p ≤ resolvedEnd env p := by
          unfold midOf; omega
        have hd1 : -1 ≤ resolvedEnd env (splitParams env maxDays p).p1 -
            effStart env 365 (splitParams env maxDays p).p1 := by
          rw [effStart_p1, resolvedEnd_p1]; unfold midOf; omega
        have hd2 : -1 ≤ resolvedEnd env (splitParams env maxDays p).p2 -
            effStart env 365 (splitParams env maxDays p).p2 := by
          rw [effStart_p2 env maxDays p (by omega), resolvedEnd_p2]
          unfold midOf; omega
        have ih1 := ih 365 (splitParams env maxDays p).p1 hd1
        have ih2 := ih 365 (splitParams env maxDays p).p2 hd2
        rw [effStart_p1, resolvedEnd_p1] at ih1
        rw [effStart_p2 env maxDays p (by omega), resolvedEnd_p2] at ih2
        simp only [get_lazy_job_offers, hnb, if_pos hn, seqChunks]
        cases herr :
            (get_lazy_job_offers env fuel 365 (splitParams env maxDays p).p1).error with
        | some e =>
          refine ⟨ih1.1, fun t ht => ?_⟩
          have hb := ih1.2 t ht
          omega
        | none =>
          simp only [List.map_append]
          constructor
          · rw [List.pairwise_append]
            refine ⟨ih1.1, ih2.1, fun a ha b hb => ?_⟩
            have h1 := ih1.2 a ha
            have h2 := ih2.2 b hb
            omega
          · intro t ht
            rcases List.mem_append.mp ht with h1 | h2
            · have := ih1.2 t h1
              omega
            · have := ih2.2 t h2
              omega
      · simp only [get_lazy_job_offers, hnb, if_neg hn, tagWalk, List.map_map]
        constructor
        · exact List.pairwise_map.mpr
            (pairwise_of_rel_all (fun a b => le_refl _) _)
        · intro t ht
          simp only [List.mem_map, Function.comp] at ht
          obtain ⟨c, hc, hct⟩ := ht
          rw [← hct]
          constructor
          · exact le_refl _
          · omega

/-- Main induction behind the termination claim: when every split happens
on a window of positive duration and every granted `Accept-Range` is
positive, fuel exceeding the window duration (in seconds) is enough for
the traversal to avoid the divergence marker. -/
theorem stream_no_fuelOut (env : Env)
    (H1 : ∀ p n, env.head p = some n → MAX_RANGE ≤ n →
      1 ≤ resolvedEnd env p - effStart env 365 p)
    (H2 : ∀ p i g, (env.fetch p i).acceptRange = some g → 1 ≤ g) :
    ∀ (fuel : Nat) (p : Params),
      (resolvedEnd env p - effStart env 365 p).toNat < fuel →
      (get_lazy_job_offers env fuel 365 p).error ≠ some .fuelOut := by
  intro fuel
  induction fuel with
  | zero => intro p h; omega
  | succ fuel ih =>
    intro p h
    cases hnb : get_nb_offers env p with
    | none => simp [get_lazy_job_offers, hnb]
    | some n =>
      by_cases hn : MAX_RANGE ≤ n
      · have hhead : env.head p = some n := by
          rw [← get_nb_offers_eq]; exact hnb
        have hd := H1 p n hhead hn
        have hb1 : (resolvedEnd env (splitParams env 365 p).p1 -
            effStart env 365 (splitParams env 365 p).p1).toNat < fuel := by
          rw [effStart_p1, resolvedEnd_p1]; unfold midOf; omega
        have hb2 : (resolvedEnd env (splitParams env 365 p).p2 -
            effStart env 365 (splitParams env 365 p).p2).toNat < fuel := by
          rw [effStart_p2 env 365 p (by omega), resolvedEnd_p2]
          unfold midOf; omega
        simp only [get_lazy_job_offers, hnb, if_pos hn, seqChunks]
        cases herr :
            (get_lazy_job_offers env fuel 365 (splitParams env 365 p).p1).error with
        | some e =>
          have h1 := ih (splitParams env 365 p).p1 hb1
          rw [herr] at h1
          simpa using h1
        | none =>
          simpa using ih (splitParams env 365 p).p2 hb2
      · simp only [get_lazy_job_offers, hnb, if_neg hn, tagWalk]
        exact walkWindow_no_fuelOut env p (fun g hg => H2 p 0 g hg)

/-! ### Claims -/

/-- C1: the claim says a 200 (or 206 page) response whose body lacks the
`resultats` field makes the walker yield one empty chunk and complete
normally.  The code instead evaluates `response.json()[[]]` (the
conditional is inside the subscript, so the absent field selects the
unhashable key `[]`) and raises `TypeError`; the clear intent — mirrored by
the spec — was to substitute the empty list.  This theorem evaluates the
embedded code at the failing inputs: a lone 200 response without
`resultats` raises `typeKeyList` after yielding nothing, and a 206 walk
whose second page lacks the field raises after the first chunk. -/
theorem claim1_missing_resultats_raises :
    get_lazy_job_offers env_c1 1 365 p_c1a =
      ⟨[], 1, 0, some .typeKeyList, p_c1a⟩ ∧
    walkWindow env_c1 p_c1b = ⟨[[5]], 2, some .typeKeyList⟩ := by
  constructor <;> decide

/-- C2, counterexample: with a count probe that lacks the `Content-Range`
header, `get_nb_offers` does return the explicit unknown value `None`, but
`get_lazy_job_offers` then crashes (`None >= self.MAX_RANGE` raises
`TypeError` in Python 3) instead of exercising a split-by-default or abort
fallback — it yields nothing and raises. -/
theorem claim2_counterexample :
    get_nb_offers env_c2 p_plain = none ∧
    get_lazy_job_offers env_c2 3 365 p_plain =
      ⟨[], 0, 0, some .typeCmpNone, p_plain⟩ := by
  constructor <;> decide

/-- C2, amended: for every params map whose count probe lacks the
`Content-Range` header, `get_nb_offers` returns `None`, and
`get_lazy_job_offers` on such params raises `TypeError` at the
`nb_offers >= self.MAX_RANGE` comparison before issuing any GET — no
fallback exists. -/
theorem claim2_no_range_header (env : Env) (p : Params) (fuel : Nat)
    (maxCreationDays : Int) (h : env.head p = none) :
    get_nb_offers env p = none ∧
    get_lazy_job_offers env (fuel+1) maxCreationDays p =
      ⟨[], 0, 0, some .typeCmpNone, p⟩ := by
  have hn : get_nb_offers env p = none := by rw [get_nb_offers_eq, h]
  refine ⟨hn, ?_⟩
  simp only [get_lazy_job_offers]
  rw [hn]

theorem claim2_witness :
    get_nb_offers env_c2 p_plain = none ∧
    get_lazy_job_offers env_c2 1 365 p_plain =
      ⟨[], 0, 0, some .typeCmpNone, p_plain⟩ :=
  claim2_no_range_header env_c2 p_plain 0 365 rfl

/-- C3: for a window `[start, end]` with `start ≤ end` (effective start and
resolved end, in seconds), the split produces the child windows
`[start, mid]` and `[mid + 1, end]` with `mid = start + (end - start)/2`,
and as sets of second-resolution timestamps the children are disjoint and
their union is exactly `[start, end]`. -/
theorem claim3_partition_coverage (env : Env) (maxCreationDays : Int) (p : Params)
    (h : effStart env maxCreationDays p ≤ resolvedEnd env p) :
    (splitParams env maxCreationDays p).p1.minCreationDate =
      some (effStart env maxCreationDays p) ∧
    (splitParams env maxCreationDays p).p1.maxCreationDate =
      some (midOf env maxCreationDays p) ∧
    (splitParams env maxCreationDays p).p2.minCreationDate =
      some (midOf env maxCreationDays p + 1) ∧
    (splitParams env maxCreationDays p).p2.maxCreationDate =
      some (resolvedEnd env p) ∧
    (∀ t : Int,
      (effStart env maxCreationDays p ≤ t ∧ t ≤ resolvedEnd env p) ↔
        ((effStart env maxCreationDays p ≤ t ∧ t ≤ midOf env maxCreationDays p) ∨
         (midOf env maxCreationDays p + 1 ≤ t ∧ t ≤ resolvedEnd env p))) ∧
    (∀ t : Int,
      ¬((effStart env maxCreationDays p ≤ t ∧ t ≤ midOf env maxCreationDays p) ∧
        (midOf env maxCreationDays p + 1 ≤ t ∧ t ≤ resolvedEnd env p))) := by
  refine ⟨rfl, rfl, rfl, rfl, ?_, ?_⟩
  · intro t
    unfold midOf at *
    omega
  · intro t
    unfold midOf
    omega

theorem claim3_witness :
    (splitParams env_c2 365 p_c3w).p1.minCreationDate = some 0 ∧
    (splitParams env_c2 365 p_c3w).p1.maxCreationDate = some 1 ∧
    (splitParams env_c2 365 p_c3w).p2.minCreationDate = some 2 ∧
    (splitParams env_c2 365 p_c3w).p2.maxCreationDate = some 3 := by
  have h := claim3_partition_coverage env_c2 365 p_c3w (by decide)
  exact ⟨h.1, h.2.1, h.2.2.1, h.2.2.2.1⟩

/-- C4: `get_lazy_job_offers` splits iff the probed count reaches
`MAX_RANGE = 3000` (first conjunct, for any environment), and the concrete
scenario: params `{departement: "42"}` with a root count of 3500 and both
dated children counting 100 performs exactly one split, fetches each child
directly (two GETs in total), and `get_all_job_offers` returns the left
child's records followed by the right child's, with no error. -/
theorem claim4_split_iff_ceiling :
    (∀ (env : Env) (fuel : Nat) (maxCreationDays : Int) (p : Params) (n : Int),
      get_nb_offers env p = some n →
      ((get_lazy_job_offers env (fuel+1) maxCreationDays p).splits = 0 ↔
        n < MAX_RANGE)) ∧
    ((get_lazy_job_offers env_c4 2 365 p_c4).splits = 1 ∧
     (get_lazy_job_offers env_c4 2 365 p_c4).fetches = 2 ∧
     get_nb_offers env_c4 p_c4 = some 3500 ∧
     get_nb_offers env_c4 (splitParams env_c4 365 p_c4).p1 = some 100 ∧
     get_nb_offers env_c4 (splitParams env_c4 365 p_c4).p2 = some 100 ∧
     get_all_job_offers env_c4 2 365 p_c4 = ([10, 11, 20, 21], none)) := by
  constructor
  · intro env fuel maxCreationDays p n h
    simp only [get_lazy_job_offers, h]
    by_cases hn : MAX_RANGE ≤ n
    · rw [if_pos hn]
      unfold seqChunks
      cases (get_lazy_job_offers env fuel 365 (splitParams env maxCreationDays p).p1).error <;>
        simp <;> omega
    · rw [if_neg hn]
      unfold tagWalk
      simp
      omega
  · refine ⟨by decide, by decide, by decide, by decide, by decide, by decide⟩

theorem claim4_witness :
    (get_lazy_job_offers env_c4 1 365 (splitParams env_c4 365 p_c4).p1).splits = 0 ↔
      (100 : Int) < MAX_RANGE := by
  exact claim4_split_iff_ceiling.1 env_c4 0 365 (splitParams env_c4 365 p_c4).p1 100 (by decide)

/-- C6, counterexample: a splitting call whose params hold
`publieeDepuis = 10` together with a `minCreationDate` only five days old:
the published-since bound (ten days ago) does not raise the start, the
source therefore skips the `del`, and both children keep the
`publieeDepuis` key — contradicting the claim that it is absent from every
child query. -/
theorem claim6_counterexample :
    get_nb_offers env_c6 p_c6 = some 5000 ∧ MAX_RANGE ≤ 5000 ∧
    (splitParams env_c6 365 p_c6).p1.publieeDepuis = some 10 ∧
    (splitParams env_c6 365 p_c6).p2.publieeDepuis = some 10 := by
  refine ⟨by decide, by decide, by decide, by decide⟩

/-- C6, amended: when params hold `publieeDepuis = n`, the effective window
start used for the split is `max(resolved minCreationDate bound,
now - n days)`; the key is removed from the caller's dict and from both
child queries exactly when the published-since bound strictly raises the
start, and retained in both child queries otherwise. -/
theorem claim6_publiee_depuis_folding (env : Env) (maxCreationDays : Int)
    (p : Params) (n : Int) (hp : p.publieeDepuis = some n) :
    effStart env maxCreationDays p =
      max (resolvedStart env maxCreationDays p) (env.now - n * secondsPerDay) ∧
    (resolvedStart env maxCreationDays p < env.now - n * secondsPerDay →
      (splitParams env maxCreationDays p).p1.publieeDepuis = none ∧
      (splitParams env maxCreationDays p).p2.publieeDepuis = none ∧
      (splitParams env maxCreationDays p).caller.publieeDepuis = none) ∧
    (env.now - n * secondsPerDay ≤ resolvedStart env maxCreationDays p →
      (splitParams env maxCreationDays p).p1.publieeDepuis = some n ∧
      (splitParams env maxCreationDays p).p2.publieeDepuis = some n) := by
  simp only [effStart, splitParams, hp]
  by_cases h : resolvedStart env maxCreationDays p < env.now - n * secondsPerDay
  · simp only [if_pos h]
    refine ⟨by omega, fun _ => by simp, fun hc => absurd hc (not_le.mpr h)⟩
  · simp only [if_neg h]
    refine ⟨by omega, fun hc => absurd hc h, fun _ => ⟨hp, hp⟩⟩

theorem claim6_witness :
    effStart env_c6 365 p_c6f = max (-2592000) (0 - 10 * secondsPerDay) ∧
    (splitParams env_c6 365 p_c6f).p1.publieeDepuis = none ∧
    (splitParams env_c6 365 p_c6f).p2.publieeDepuis = none := by
  have h := claim6_publiee_depuis_folding env_c6 365 p_c6f 10 rfl
  have h2 := h.2.1 (by decide)
  exact ⟨h.1, h2.1, h2.2.1⟩

/-- C10, counterexample: the claim says the caller's params mapping is left
unchanged by the traversal; but a splitting call that folds
`publieeDepuis` executes `del params["publieeDepuis"]` on the caller's own
dict before copying it for the children, so the key is missing from the
caller's mapping after the call. -/
theorem claim10_counterexample :
    (get_lazy_job_offers env_c6 3 365 p_c6f).finalParams.publieeDepuis = none ∧
    p_c6f.publieeDepuis = some 10 := by
  constructor <;> decide

/-- C10, amended: each child query is built from its own copy of the params
dict (sibling partitions evolve independently), and the only caller-visible
mutation of the supplied mapping is the possible removal of
`publieeDepuis` by a splitting call that folds it; no key is ever added,
and no other key is removed. -/
theorem claim10_params_frame (env : Env) (fuel : Nat) (maxCreationDays : Int)
    (p : Params) :
    (get_lazy_job_offers env fuel maxCreationDays p).finalParams = p ∨
    (get_lazy_job_offers env fuel maxCreationDays p).finalParams =
      { p with publieeDepuis := none } := by
  cases fuel with
  | zero => exact Or.inl rfl
  | succ fuel =>
    cases hnb : get_nb_offers env p with
    | none => simp only [get_lazy_job_offers, hnb]; simp
    | some n =>
      simp only [get_lazy_job_offers, hnb]
      by_cases hn : MAX_RANGE ≤ n
      · rw [if_pos hn, seqChunks_finalParams]
        cases hpub : p.publieeDepuis with
        | none => simp only [splitParams, hpub]; simp
        | some m =>
          simp only [splitParams, hpub]
          by_cases hf : resolvedStart env maxCreationDays p < env.now - m * secondsPerDay
          · simp only [if_pos hf]; simp
          · simp only [if_neg hf]; simp
      · rw [if_neg hn]
        exact Or.inl rfl

/-- C5: in the 206 branch the bookkeeping starts at
`range_d = range - 1`, each iteration adds `range` capped at the total and
loops while `range_d < range_end` (this arithmetic is the embedded
`pageLoop`/`loopIters`); consequently, for a server reporting total 320
with `Accept-Range` 100 and delivering every page, the walker issues
exactly 4 GETs — one initial plus three loop iterations — and yields one
chunk per successful fetch: the initial chunk followed by the three pages'
chunks, in order, with no error. -/
theorem claim5_paging_arithmetic (env : Env) (p : Params) (c0 : Chunk)
    (cs : Nat → Chunk)
    (h0 : env.fetch p 0 = ⟨206, some c0, some 320, some 100⟩)
    (hj : ∀ j, 1 ≤ j → env.fetch p j = ⟨200, some (cs j), none, none⟩) :
    walkWindow env p = ⟨[c0, cs 1, cs 2, cs 3], 4, none⟩ := by
  have hres : ∀ j, okStatus (env.fetch p j).status = true →
      ((env.fetch p j).resultats).isSome = true := by
    intro j hok
    cases j with
    | zero => rw [h0]; rfl
    | succ k => rw [hj (k+1) (by omega)]; rfl
  unfold walkWindow
  rw [h0]
  simp only [Response.mk.injEq]
  norm_num
  rw [pageLoop_run env p 320 100 (by omega) hres _ _ 1 (by norm_num)]
  have hit : loopIters ((221 : Int).toNat + 1) 99 320 100 = 3 := by
    decide
  rw [hit]
  have hr : List.range' 1 3 = [1, 2, 3] := rfl
  rw [hr]
  simp only [List.filterMap_cons, List.filterMap_nil, hj 1 (by omega),
    hj 2 (by omega), hj 3 (by omega), consChunk]
  rfl

theorem claim5_witness :
    walkWindow env_c5 p_c5 = ⟨[[0], [1], [2], [3]], 4, none⟩ := by
  refine claim5_paging_arithmetic env_c5 p_c5 [0] (fun j => [j]) rfl ?_
  intro j hj1
  simp only [env_c5]
  rw [if_neg (by omega)]

/-- C7: first conjunct — within a 206 walk (positive granted range, every
consumable response carrying its `resultats` field), the walk completes
with no error, the number of GETs is `loopIters ... + 1`, a quantity
computed from the range bookkeeping alone and hence unchanged by
non-200/206 statuses mid-walk, and the yielded chunks are exactly the
consumable responses' `resultats` in order — skipped pages yield nothing
while the bookkeeping advances as if they had been consumed.  Second
conjunct — a non-200/206 status on the *first* fetch of a window abandons
that window: one GET, no chunks, and no exception (so the overall stream
continues). -/
theorem claim7_skip_policy :
    (∀ (env : Env) (p : Params) (c : Chunk) (total grant : Int),
      env.fetch p 0 = ⟨206, some c, some total, some grant⟩ →
      1 ≤ grant →
      (∀ j, okStatus (env.fetch p j).status = true →
        ((env.fetch p j).resultats).isSome = true) →
      walkWindow env p =
        ⟨c :: (List.range' 1 (loopIters ((total - (grant - 1)).toNat + 1)
              (grant - 1) total grant)).filterMap
            (fun j => if okStatus (env.fetch p j).status then
              (env.fetch p j).resultats else none),
          loopIters ((total - (grant - 1)).toNat + 1) (grant - 1) total grant + 1,
          none⟩) ∧
    (∀ (env : Env) (p : Params),
      okStatus (env.fetch p 0).status = false →
      walkWindow env p = ⟨[], 1, none⟩) := by
  constructor
  · intro env p c total grant h0 hg hres
    unfold walkWindow
    rw [h0]
    norm_num
    rw [pageLoop_run env p total grant hg hres _ _ 1 (by omega)]
    rfl
  · intro env p hbad
    simp only [okStatus, Bool.or_eq_false_iff, beq_eq_false_iff_ne] at hbad
    unfold walkWindow
    rw [if_neg hbad.1, if_neg hbad.2]

theorem claim7_witness :
    walkWindow env_c7 p_c7 = ⟨[[1]], 2, none⟩ ∧
    walkWindow env_c7 p_c7b = ⟨[], 1, none⟩ := by
  constructor
  · have ha := claim7_skip_policy.1 env_c7 p_c7 [1] 150 100 rfl (by omega) ?_
    · rw [ha]
      decide
    · intro j hok
      cases j with
      | zero => rfl
      | succ k => simp [env_c7, okStatus, p_c7, p_c7b] at hok
  · exact claim7_skip_policy.2 env_c7 p_c7b (by decide)

/-- C8: for a window respecting the data model's invariant
`start ≤ end` (effective start at most resolved end), every chunk of the
stream is tagged with a window start no smaller than any earlier chunk's —
the left partition is exhausted before the right one starts, so chunks
appear in non-decreasing order of their window's start time. -/
theorem claim8_chronological_order (env : Env) (fuel : Nat) (maxCreationDays : Int)
    (p : Params) (h : effStart env maxCreationDays p ≤ resolvedEnd env p) :
    List.Pairwise (· ≤ ·)
      ((get_lazy_job_offers env fuel maxCreationDays p).chunks.map Prod.fst) :=
  (stream_sorted_bounds env fuel maxCreationDays p (by omega)).1

theorem claim8_witness :
    List.Pairwise (· ≤ ·)
      ((get_lazy_job_offers env_c4 2 365 p_c4).chunks.map Prod.fst) :=
  claim8_chronological_order env_c4 2 365 p_c4 (by decide)

/-- C9, counterexample: a count oracle satisfying the claim's hypotheses —
every count is 0, far below the ceiling, so no split ever occurs and the
duration-reduction premise is vacuous — under which `get_lazy_job_offers`
still fails to terminate: the base-case window's 206 response grants an
`Accept-Range` of 0, `range_d` starts at `-1` and is advanced by 0 forever,
so the source's `while range_d < range_end` loop never exits (the run ends
in the divergence marker for any fuel). -/
theorem claim9_counterexample :
    get_nb_offers env_c9 p_plain = some 0 ∧ (0 : Int) < MAX_RANGE ∧
    (env_c9.fetch p_plain 0).acceptRange = some 0 ∧
    (get_lazy_job_offers env_c9 5 365 p_plain).error = some .fuelOut := by
  refine ⟨by decide, by decide, by decide, by decide⟩

/-- C9, amended: for every oracle under which each split happens on a
window of positive duration (so splitting strictly reduces the duration)
and every base-case window reports a count below the ceiling — here: any
window counting at or above `MAX_RANGE` has positive effective duration —
and, additionally, every granted `Accept-Range` is positive, the traversal
terminates: fuel exceeding the window duration in seconds never hits the
divergence marker, so the stream is a finite sequence of chunks. -/
theorem claim9_termination (env : Env)
    (H1 : ∀ p n, env.head p = some n → MAX_RANGE ≤ n →
      1 ≤ resolvedEnd env p - effStart env 365 p)
    (H2 : ∀ p i g, (env.fetch p i).acceptRange = some g → 1 ≤ g)
    (p : Params) :
    (get_lazy_job_offers env
        ((resolvedEnd env p - effStart env 365 p).toNat + 1) 365 p).error ≠
      some .fuelOut :=
  stream_no_fuelOut env H1 H2 _ p (by omega)

theorem claim9_witness :
    (get_lazy_job_offers env_c9w
        ((resolvedEnd env_c9w p_c9w - effStart env_c9w 365 p_c9w).toNat + 1)
        365 p_c9w).error ≠ some .fuelOut := by
  refine claim9_termination env_c9w ?_ ?_ p_c9w
  · intro p n hpn hn
    have h0 : some (0 : Int) = some n := hpn
    rw [← Option.some.inj h0] at hn
    exact absurd hn (by decide)
  · intro p i g hg
    have h1 : some (1 : Int) = some g := hg
    have := Option.some.inj h1
    omega
